import Mathlib

/-!
Verification of the natural-language query engine of rss-news-ai
(`src/query_engine.py` and the data layer `src/history_db.py`).

The Python code is shallowly embedded: pure string manipulation is
translated to executable Lean functions over `List Char` / `String`;
the SQLite engine (an external collaborator) is modelled as an oracle
inside a `Store` structure; raised exceptions are modelled with
`Except`, mirroring exactly where the Python code raises and catches.
-/

namespace RssNewsAI

/-! ## Python string primitives (ASCII model)

`str.strip`, `str.upper`, `str.lower`, slicing, and the regex pieces
used by `query_engine.py` (`\s`, `\w`, word boundaries, substring
search). Unicode-only differences are out of scope: every string the
engine manipulates in the claims is ASCII.
-/

/-- Python `\s` / `str.strip` whitespace (ASCII part). -/
def isPySpace (c : Char) : Bool :=
  c = ' ' || c = '\t' || c = '\n' || c = '\r' || c = '\x0b' || c = '\x0c'

/-- Python regex `\w`: letters, digits, underscore (ASCII model). -/
def isWordChar (c : Char) : Bool :=
  c.isAlphanum || c = '_'

/-- Python `str.strip()`. -/
def pyStrip (s : String) : String :=
  String.mk (((s.data.dropWhile isPySpace).reverse.dropWhile isPySpace).reverse)

/-- Python `str.upper()` (ASCII model). -/
def pyUpper (s : String) : String :=
  String.mk (s.data.map Char.toUpper)

/-- Python `str.lower()` (ASCII model). -/
def pyLower (s : String) : String :=
  String.mk (s.data.map Char.toLower)

/-- Python slice `s[:n]`. -/
def pySlice (n : Nat) (s : String) : String :=
  String.mk (s.data.take n)

/-- Does `pat` occur as a prefix of `cs`? Returns the rest on success. -/
def dropPref : List Char → List Char → Option (List Char)
  | [], rest => some rest
  | _ :: _, [] => none
  | p :: ps, c :: cs => if p = c then dropPref ps cs else none

/-- Substring search: does `pat` occur anywhere in `cs`? -/
def containsSubCl (pat : List Char) : List Char → Bool
  | [] => (dropPref pat []).isSome
  | c :: rest => (dropPref pat (c :: rest)).isSome || containsSubCl pat rest

/-- Substring search on strings (`pat in s` / `re.search` for a literal). -/
def containsSub (s pat : String) : Bool :=
  containsSubCl pat.data s.data

/-- Python `s.startswith(pre)` (kernel-computable). -/
def startsWithStr (s pre : String) : Bool :=
  (dropPref pre.data s.data).isSome

/-- Python `s.endswith(suf)` (kernel-computable). -/
def endsWithStr (s suf : String) : Bool :=
  (dropPref suf.data.reverse s.data.reverse).isSome

/-- One position of the regex `\bKW\b`: `kw` is a prefix here and the
following character (if any) is not a word character. `prevOk` records
whether the position is preceded by a non-word character (or is the
string start). -/
def wbHere (kw : List Char) (prevOk : Bool) (cs : List Char) : Bool :=
  prevOk &&
    match dropPref kw cs with
    | some [] => true
    | some (c :: _) => !isWordChar c
    | none => false

/-- Search for the regex `\bKW\b` anywhere in the character list. -/
def wbSearch (kw : List Char) (prevOk : Bool) : List Char → Bool
  | [] => wbHere kw prevOk []
  | c :: rest => wbHere kw prevOk (c :: rest) || wbSearch kw (!isWordChar c) rest

/-- `re.search(r'\b' + kw + r'\b', s)` as a Boolean. -/
def containsWord (s kw : String) : Bool :=
  wbSearch kw.data true s.data

/-- After the semicolon of the regex `;\s*\w`: skip whitespace, then
require a word character. -/
def wordAfterWs : List Char → Bool
  | [] => false
  | c :: rest => if isPySpace c then wordAfterWs rest else isWordChar c

/-- The regex `;\s*\w` from `FORBIDDEN_SQL_PATTERNS`: some semicolon is
followed, possibly after whitespace, by a word character. -/
def semiThenWord : List Char → Bool
  | [] => false
  | c :: rest => (c = ';' && wordAfterWs rest) || semiThenWord rest

/-- Spec-side predicate (from the claim wording, not the code): after
skipping whitespace there is any further non-whitespace character. -/
def nonWsAfterWs : List Char → Bool
  | [] => false
  | c :: rest => if isPySpace c then nonWsAfterWs rest else true

/-- Spec-side predicate (from the claim wording, not the code): some
semicolon is followed, possibly after whitespace, by any further
non-whitespace content. -/
def semiThenNonWs : List Char → Bool
  | [] => false
  | c :: rest => (c = ';' && nonWsAfterWs rest) || semiThenNonWs rest

/-! ## SQL guardrail validator (`query_engine.validate_sql`) -/

/-- `FORBIDDEN_SQL_KEYWORDS` from `query_engine.py`. -/
def FORBIDDEN_SQL_KEYWORDS : List String :=
  ["INSERT", "UPDATE", "DELETE", "DROP", "ALTER", "CREATE", "TRUNCATE",
   "REPLACE", "GRANT", "REVOKE", "ATTACH", "DETACH", "VACUUM", "REINDEX",
   "PRAGMA", "BEGIN", "COMMIT", "ROLLBACK", "SAVEPOINT", "RELEASE"]

/-- The keyword loop of `validate_sql`: the first denylisted keyword
(in list order) occurring at word boundaries in `sqlUpper`. -/
def findForbiddenKeyword (sqlUpper : String) : Option String :=
  FORBIDDEN_SQL_KEYWORDS.find? (fun kw => containsWord sqlUpper kw)

/-- The `FORBIDDEN_SQL_PATTERNS` loop of `validate_sql`: the regexes
`;\s*\w`, `--`, `/*`, checked against the raw input (the `re.IGNORECASE`
flag is irrelevant for these patterns). -/
def hasForbiddenPattern (sql : String) : Bool :=
  semiThenWord sql.data || containsSub sql "--" || containsSub sql "/*"

/-- `validate_sql` from `query_engine.py` (lines 163-201). The final
subquery `findall` loop of the source is a no-op (`pass`) and is
omitted. -/
def validate_sql (sql : String) : Bool × String :=
  if pyStrip sql = "" then (false, "Empty SQL query")
  else
    let sql_upper := pyStrip (pyUpper sql)
    if !startsWithStr sql_upper "SELECT" then (false, "Only SELECT queries are allowed")
    else
      match findForbiddenKeyword sql_upper with
      | some kw => (false, "Forbidden keyword: " ++ kw)
      | none =>
        if hasForbiddenPattern sql then (false, "Forbidden SQL pattern detected")
        else (true, "")

example : validate_sql "SELECT 1; (2)" = (true, "") := by decide
example : validate_sql "SELECTED" = (true, "") := by decide
example : validate_sql "SELECT 1; DROP TABLE topics" = (false, "Forbidden keyword: DROP") := by decide
example : validate_sql "" = (false, "Empty SQL query") := by decide
example : validate_sql "   " = (false, "Empty SQL query") := by decide
example : validate_sql "SELECT 1; x" = (false, "Forbidden SQL pattern detected") := by decide
example : validate_sql "select * from topics" = (true, "") := by decide

/-! ## Safe query executor (`query_engine.execute_safe_sql`)

SQLite itself is an external collaborator; a connection is modelled as
an oracle `runSelect` answering a SELECT with rows or an engine error.
A row is the `dict(zip(columns, row))` of the source: an ordered list
of column-name/value pairs. `opened` records whether
`get_db_connection` was entered (the `with` block of the source).
-/

/-- A SQLite cell value (integer, text, or NULL). -/
inductive SqlValue where
  | sInt (n : Int)
  | sText (t : String)
  | sNull
deriving DecidableEq, Repr

/-- Python `str()` of a cell value. -/
def SqlValue.pyText : SqlValue → String
  | .sInt n => toString n
  | .sText t => t
  | .sNull => "None"

/-- One result row: the `dict(zip(columns, row))` of `execute_safe_sql`. -/
abbrev Row := List (String × SqlValue)

/-- The store connection: an oracle for the external SQLite engine.
`runSelect` returns the fetched rows or a raised `sqlite3.Error`
message. -/
structure SqlConn where
  runSelect : String → Except String (List Row)

/-- Outcome of `execute_safe_sql`: the Python `(success, result)` pair
(`.ok rows` for `(True, rows)`, `.error msg` for `(False, msg)`), plus
whether a store connection was opened on the way. -/
structure ExecResult where
  opened : Bool
  outcome : Except String (List Row)

/-- `execute_safe_sql` from `query_engine.py` (lines 204-236): validate
first, reject without opening a connection on failure, otherwise run
the statement read-only and convert engine errors to a failure string. -/
def execute_safe_sql (sql : String) (conn : SqlConn) : ExecResult :=
  match validate_sql sql with
  | (false, error) => { opened := false, outcome := .error error }
  | (true, _) =>
    match conn.runSelect sql with
    | .ok rows => { opened := true, outcome := .ok rows }
    | .error e => { opened := true, outcome := .error ("SQL error: " ++ e) }

/-! ## JSON values and `json.loads` (integer-number subset)

`_parse_classification` calls `json.loads`; the parser below is a
recursive-descent embedding of the JSON grammar as accepted by
`json.loads`, restricted to integer numbers and to string escapes
without `\uXXXX` (every string the engine's claims touch stays inside
this subset). Duplicate object keys keep the last value, as in
`json.loads`. A parse failure is `none`, modelling the caught
`json.JSONDecodeError`.
-/

/-- JSON values (Python objects produced by `json.loads`). -/
inductive Json where
  | null
  | bool (b : Bool)
  | num (n : Int)
  | str (s : String)
  | arr (elems : List Json)
  | obj (fields : List (String × Json))
deriving Repr

/-- Skip JSON/Python whitespace. -/
def skipWs (cs : List Char) : List Char :=
  cs.dropWhile isPySpace

/-- A JSON string escape character. -/
def escChar : Char → Option Char
  | '"' => some '"'
  | '\\' => some '\\'
  | '/' => some '/'
  | 'b' => some (Char.ofNat 8)
  | 'f' => some (Char.ofNat 12)
  | 'n' => some '\n'
  | 'r' => some '\r'
  | 't' => some '\t'
  | _ => none

/-- Parse the body of a JSON string after the opening quote. -/
def parseStrBody (acc : List Char) : List Char → Option (String × List Char)
  | [] => none
  | '"' :: rest => some (String.mk acc.reverse, rest)
  | '\\' :: e :: rest =>
    match escChar e with
    | some c => parseStrBody (c :: acc) rest
    | none => none
  | '\\' :: [] => none
  | c :: rest => if c.toNat < 32 then none else parseStrBody (c :: acc) rest

/-- Parse a run of decimal digits. -/
def parseDigits (acc : Nat) : List Char → Nat × List Char
  | c :: rest =>
    if c.isDigit then parseDigits (acc * 10 + (c.toNat - 48)) rest
    else (acc, c :: rest)
  | [] => (acc, [])

/-- Parse a JSON integer literal (sign, no leading zeros, no fraction
or exponent — the subset noted above; a fraction or exponent makes the
whole parse fail). -/
def parseIntLit (cs : List Char) : Option (Int × List Char) :=
  let (neg, cs1) := match cs with
    | '-' :: rest => (true, rest)
    | _ => (false, cs)
  match cs1 with
  | [] => none
  | c :: rest =>
    if c = '0' then
      match rest with
      | c2 :: _ =>
        if c2.isDigit || c2 = '.' || c2 = 'e' || c2 = 'E' then none
        else some (0, rest)
      | [] => some (0, rest)
    else if c.isDigit then
      let (n, rest2) := parseDigits (c.toNat - 48) rest
      match rest2 with
      | c2 :: _ => if c2 = '.' || c2 = 'e' || c2 = 'E' then none
                   else some (if neg then -(n : Int) else (n : Int), rest2)
      | [] => some (if neg then -(n : Int) else (n : Int), rest2)
    else none

mutual

/-- Parse one JSON value (fuel-bounded recursive descent). -/
def parseVal : Nat → List Char → Option (Json × List Char)
  | 0, _ => none
  | fuel + 1, cs =>
    match skipWs cs with
    | [] => none
    | 'n' :: 'u' :: 'l' :: 'l' :: rest => some (.null, rest)
    | 't' :: 'r' :: 'u' :: 'e' :: rest => some (.bool true, rest)
    | 'f' :: 'a' :: 'l' :: 's' :: 'e' :: rest => some (.bool false, rest)
    | '"' :: rest =>
      match parseStrBody [] rest with
      | some (s, rest2) => some (.str s, rest2)
      | none => none
    | '[' :: rest =>
      (match skipWs rest with
       | ']' :: rest2 => some (.arr [], rest2)
       | cs2 =>
         match parseElems fuel cs2 with
         | some (vs, rest2) => some (.arr vs, rest2)
         | none => none)
    | c :: rest =>
      if c = Char.ofNat 123 then
        (match skipWs rest with
         | cs2 =>
           match cs2 with
           | c2 :: rest2 =>
             if c2 = Char.ofNat 125 then some (.obj [], rest2)
             else
               match parseMembers fuel cs2 with
               | some (kvs, rest3) => some (.obj kvs, rest3)
               | none => none
           | [] => none)
      else
        match parseIntLit (c :: rest) with
        | some (n, rest2) => some (.num n, rest2)
        | none => none

/-- Parse the comma-separated elements of a JSON array, consuming the
closing bracket. -/
def parseElems : Nat → List Char → Option (List Json × List Char)
  | 0, _ => none
  | fuel + 1, cs =>
    match parseVal fuel cs with
    | none => none
    | some (v, rest) =>
      match skipWs rest with
      | ',' :: rest2 =>
        (match parseElems fuel rest2 with
         | some (vs, rest3) => some (v :: vs, rest3)
         | none => none)
      | ']' :: rest2 => some ([v], rest2)
      | _ => none

/-- Parse the comma-separated members of a JSON object, consuming the
closing brace. -/
def parseMembers : Nat → List Char → Option (List (String × Json) × List Char)
  | 0, _ => none
  | fuel + 1, cs =>
    match skipWs cs with
    | '"' :: rest =>
      (match parseStrBody [] rest with
       | some (k, rest2) =>
         (match skipWs rest2 with
          | ':' :: rest3 =>
            (match parseVal fuel rest3 with
             | some (v, rest4) =>
               (match skipWs rest4 with
                | ',' :: rest5 =>
                  (match parseMembers fuel rest5 with
                   | some (kvs, rest6) => some ((k, v) :: kvs, rest6)
                   | none => none)
                | c :: rest5 =>
                  if c = Char.ofNat 125 then some ([(k, v)], rest5) else none
                | [] => none)
             | none => none)
          | _ => none)
       | none => none)
    | _ => none

end

/-- `json.loads` (on the subset noted above): parse one value and
require only whitespace after it. -/
def jsonLoads (s : String) : Option Json :=
  match parseVal (s.data.length + 1) s.data with
  | some (v, rest) => if (skipWs rest).isEmpty then some v else none
  | none => none

example : jsonLoads "\x7b\"a\": 1\x7d" = some (.obj [("a", .num 1)]) := rfl
example : jsonLoads " \x7b\"a\": [1, -2], \"b\": \"x\"\x7d " =
    some (.obj [("a", .arr [.num 1, .num (-2)]), ("b", .str "x")]) := rfl
example : jsonLoads "hello" = none := rfl
example : jsonLoads "\x7b\"a\": 1" = none := rfl

/-! ## Python value helpers over `Json` -/

/-- Python truthiness of a `json.loads` result (`if not classification:`). -/
def jsonTruthy : Json → Bool
  | .null => false
  | .bool b => b
  | .num n => n != 0
  | .str s => s != ""
  | .arr xs => !xs.isEmpty
  | .obj kvs => !kvs.isEmpty

mutual

/-- Python `repr()` of a `json.loads` value (used by `str()` on lists). -/
def jsonRepr : Json → String
  | .null => "None"
  | .bool true => "True"
  | .bool false => "False"
  | .num n => toString n
  | .str s => "'" ++ s ++ "'"
  | .arr xs => "[" ++ String.intercalate ", " (jsonReprList xs) ++ "]"
  | .obj kvs => "\x7b" ++ String.intercalate ", " (jsonReprKvs kvs) ++ "\x7d"

/-- `repr()` of each element of a list. -/
def jsonReprList : List Json → List String
  | [] => []
  | x :: xs => jsonRepr x :: jsonReprList xs

/-- `repr()` of each key/value pair of a dict. -/
def jsonReprKvs : List (String × Json) → List String
  | [] => []
  | (k, v) :: kvs => ("'" ++ k ++ "': " ++ jsonRepr v) :: jsonReprKvs kvs

end

/-- Python `str()` of a `json.loads` value, as used in f-strings. -/
def jsonPyStr : Json → String
  | .str s => s
  | v => jsonRepr v

/-- Dictionary lookup: a CPython dict built from a key/value sequence
keeps the LAST value of a repeated key, and `dict.get` returns it. -/
def lookupLast {α : Type} (kvs : List (String × α)) (k : String) : Option α :=
  match kvs with
  | [] => none
  | (k2, v) :: rest =>
    match lookupLast rest k with
    | some v2 => some v2
    | none => if k2 = k then some v else none

/-- Python `value == "literal"` for a `json.loads` value. -/
def jsonEqStr : Json → String → Bool
  | .str s, t => s = t
  | _, _ => false

/-- Python `params.get(key, dflt)`: dictionary lookup with a default;
on a non-dict value `.get` raises `AttributeError` (modelled as
`.error`), which the engine catches at `classify_and_execute`. -/
def pget (params : Json) (key : String) (dflt : Json) : Except String Json :=
  match params with
  | .obj kvs => .ok ((lookupLast kvs key).getD dflt)
  | _ => .error "AttributeError: object has no attribute get"

/-! ## Classification parsing (`QueryEngine._parse_classification`)

The three `re.sub` fence strips (`^` and `$` anchored, no `re.M`; `$`
also matches just before a final newline) followed by a strict
`json.loads`, and on failure the leftmost match of `\{[^\x7b\x7d]*\}`
re-parsed. The caught `json.JSONDecodeError` / returned `None` is
modelled as `none`: the function never raises.
-/

/-- `re.sub(r'^\x60\x60\x60json\s*', '', s)` (fences are backticks). -/
def subLeadingFenceJson (s : String) : String :=
  if startsWithStr s "```json" then String.mk ((s.data.drop 7).dropWhile isPySpace)
  else s

/-- `re.sub(r'^\x60\x60\x60\s*', '', s)`. -/
def subLeadingFence (s : String) : String :=
  if startsWithStr s "```" then String.mk ((s.data.drop 3).dropWhile isPySpace)
  else s

/-- `re.sub(r'\s*\x60\x60\x60$', '', s)`: Python `$` matches at the end
of the string or just before a single final newline, and `\s*` extends
the leftmost match through the whole whitespace run before the fence. -/
def subTrailingFence (s : String) : String :=
  if endsWithStr s "```" then
    String.mk (((s.data.reverse.drop 3).dropWhile isPySpace).reverse)
  else if endsWithStr s "```\n" then
    String.mk (('\n' :: ((s.data.reverse.drop 4).dropWhile isPySpace)).reverse)
  else s

/-- The three `re.sub` calls of `_parse_classification`, in source
order. -/
def stripFences (s : String) : String :=
  subTrailingFence (subLeadingFence (subLeadingFenceJson s))

/-- The run of non-brace characters after an opening brace, if it is
closed by `\x7d` before any further brace appears. -/
def braceFree : List Char → Option (List Char)
  | [] => none
  | c :: rest =>
    if c = Char.ofNat 125 then some []
    else if c = Char.ofNat 123 then none
    else
      match braceFree rest with
      | some body => some (c :: body)
      | none => none

/-- `re.search(r'\{[^\x7b\x7d]*\}', s, re.DOTALL)`: the leftmost
brace-delimited block that contains no nested braces. -/
def findBraceBlock : List Char → Option String
  | [] => none
  | c :: rest =>
    if c = Char.ofNat 123 then
      match braceFree rest with
      | some body => some ("\x7b" ++ String.mk body ++ "\x7d")
      | none => findBraceBlock rest
    else findBraceBlock rest

/-- `QueryEngine._parse_classification` (lines 389-408): strip fences,
strict `json.loads` on the stripped text, and on failure re-parse the
first brace-free `\x7b...\x7d` block; `none` models the `None` return
(no exception escapes). -/
def parse_classification (response : String) : Option Json :=
  let r := stripFences response
  match jsonLoads (pyStrip r) with
  | some v => some v
  | none =>
    match findBraceBlock r.data with
    | some blk => jsonLoads blk
    | none => none

example : parse_classification "```json\n\x7b\"function\": \"get_trends\"\x7d\n```" =
    some (.obj [("function", .str "get_trends")]) := rfl
example : parse_classification "no json here" = none := rfl
example :
    parse_classification
      "reply: \x7b\"function\": \"search_topics\", \"parameters\": \x7b\"query\": \"ai\"\x7d\x7d" =
    some (.obj [("query", .str "ai")]) := rfl

/-! ## The store and the prebuilt aggregation queries (`history_db.py`)

The SQLite engine answering the parameterized SQL of `history_db.py` is
an external collaborator: each SQL statement's answer is a `Store`
oracle field. The Python-side logic of `history_db.py` — the period
whitelist of `topic_counts_by_period`, the set computations of
`top_topics_comparison`, the `query.lower()` pattern and optional date
filters of `topic_search`, and the shapes of the returned dicts — is
translated from the source.
-/

/-- A `{title, link}` sample article attached to a trend/comparison row. -/
structure ArticleRef where
  title : String
  link : String
deriving Repr, DecidableEq

/-- One element of the `topic_counts_by_period` result. -/
structure TrendItem where
  period : String
  topic : String
  story_count : Int
  article_count : Int
  articles : List ArticleRef
deriving Repr, DecidableEq

/-- One element of a `get_top_topics` result inside
`top_topics_comparison`. -/
structure TopicEntry where
  topic : String
  story_count : Int
  article_count : Int
  articles : List ArticleRef
deriving Repr, DecidableEq

/-- One row fetched by the main SELECT of `topic_search`. -/
structure SearchRow where
  id : Int
  topic_name : String
  normalized_name : String
  summary_text : String
  article_count : Int
  generated_at : String
  summary_id : Int
deriving Repr, DecidableEq

/-- One article row of the per-topic article SELECT of `topic_search`. -/
structure ArticleFull where
  title : String
  link : String
  source : String
  published_date : String
deriving Repr, DecidableEq

/-- One element of the `topic_search` result list. -/
structure SearchResult where
  topic_name : String
  normalized_name : String
  summary_text : String
  article_count : Int
  generated_at : String
  summary_id : Int
  articles : List ArticleFull
deriving Repr, DecidableEq

/-- The store: oracles for the external SQLite engine's answers to the
fixed parameterized statements of `history_db.py`, plus the raw
connection used by `execute_safe_sql`. -/
structure Store where
  /-- Answer to the grouped trend SELECT, given start date, end date
  and the `strftime` period format chosen by `topic_counts_by_period`
  (sample articles folded in, as assembled by the source loop). -/
  trendRows : Json → Json → String → List TrendItem
  /-- Answer to the `get_top_topics` SELECT of `top_topics_comparison`,
  given start, end and limit (sample articles folded in). -/
  topTopics : Json → Json → Json → List TopicEntry
  /-- Answer to the main SELECT of `topic_search`, given the LIKE
  pattern, the optionally-added start/end date filters, and the limit. -/
  searchRows : String → Option Json → Option Json → Json → List SearchRow
  /-- Answer to the per-topic article SELECT of `topic_search`. -/
  articlesForTopic : Int → List ArticleFull
  /-- The raw connection for custom SQL. -/
  conn : SqlConn

/-- `topic_counts_by_period` from `history_db.py` (lines 416-491): an
invalid aggregation period is answered with `[]` (source lines
441-443), otherwise the grouped SELECT runs with the chosen `strftime`
format. -/
def topic_counts_by_period (st : Store) (start_date end_date period : Json) :
    List TrendItem :=
  if jsonEqStr period "day" then st.trendRows start_date end_date "%Y-%m-%d"
  else if jsonEqStr period "week" then st.trendRows start_date end_date "%Y-W%W"
  else if jsonEqStr period "month" then st.trendRows start_date end_date "%Y-%m"
  else []

/-- Helper for `dedupFirst`: keep elements not seen yet. -/
def dedupGo : List String → List String → List String
  | [], _ => []
  | x :: xs, seen =>
    if seen.contains x then dedupGo xs seen else x :: dedupGo xs (x :: seen)

/-- The distinct elements of a list, first occurrences first: the
model of a Python `set` built from the list (membership is what
matters; CPython's hash iteration order is not observable in any
claim). -/
def dedupFirst (l : List String) : List String :=
  dedupGo l []

/-- Result of `top_topics_comparison`: the `period1`/`period2`/
`comparison` dict of `history_db.py` lines 566-582. -/
structure CompResult where
  period1_start : Json
  period1_end : Json
  period1_topics : List TopicEntry
  period2_start : Json
  period2_end : Json
  period2_topics : List TopicEntry
  common_topics : List String
  new_in_period2 : List String
  dropped_from_period1 : List String
deriving Repr

/-- `top_topics_comparison` from `history_db.py` (lines 494-586): fetch
the two top-topic lists and compute `p1 & p2`, `p2 - p1`, `p1 - p2`
over the topic-name sets. -/
def top_topics_comparison (st : Store) (p1s p1e p2s p2e lim : Json) : CompResult :=
  let period1_topics := st.topTopics p1s p1e lim
  let period2_topics := st.topTopics p2s p2e lim
  let n1 := dedupFirst (period1_topics.map (·.topic))
  let n2 := dedupFirst (period2_topics.map (·.topic))
  { period1_start := p1s, period1_end := p1e, period1_topics := period1_topics,
    period2_start := p2s, period2_end := p2e, period2_topics := period2_topics,
    common_topics := n1.filter (fun x => n2.contains x),
    new_in_period2 := n2.filter (fun x => !n1.contains x),
    dropped_from_period1 := n1.filter (fun x => !n2.contains x) }

/-- `topic_search` from `history_db.py` (lines 589-664): lowercase the
query into a `%...%` LIKE pattern, add the optional date filters for
truthy bounds, and attach each row's articles. A non-string query makes
`query.lower()` raise inside the function's own `try`, which the broad
`except` turns into `[]`. -/
def topic_search (st : Store) (query start_date end_date limit : Json) :
    List SearchResult :=
  match query with
  | .str q =>
    let pattern := "%" ++ pyLower q ++ "%"
    let sf := if jsonTruthy start_date then some start_date else none
    let ef := if jsonTruthy end_date then some end_date else none
    (st.searchRows pattern sf ef limit).map fun row =>
      { topic_name := row.topic_name, normalized_name := row.normalized_name,
        summary_text := row.summary_text, article_count := row.article_count,
        generated_at := row.generated_at, summary_id := row.summary_id,
        articles := st.articlesForTopic row.id }
  | _ => []

/-! ## Response formatters (`QueryEngine._format_*`) -/

/-- Insert into a story-count-descending list, keeping earlier elements
first among equal counts (Python `sorted` is stable). -/
def insertByCountDesc (x : TrendItem) : List TrendItem → List TrendItem
  | [] => [x]
  | y :: ys =>
    if y.story_count ≤ x.story_count then x :: y :: ys
    else y :: insertByCountDesc x ys

/-- `sorted(items, key=story_count, reverse=True)`. -/
def sortByCountDesc : List TrendItem → List TrendItem
  | [] => []
  | x :: xs => insertByCountDesc x (sortByCountDesc xs)

/-- Insert into an ascending list of strings. -/
def insertStrAsc (x : String) : List String → List String
  | [] => [x]
  | y :: ys => if x < y then x :: y :: ys else y :: insertStrAsc x ys

/-- `sorted(keys)` for period keys. -/
def sortStrAsc : List String → List String
  | [] => []
  | x :: xs => insertStrAsc x (sortStrAsc xs)

/-- Append an item to its period's group, keeping dict insertion order. -/
def groupInsert (p : String) (it : TrendItem) :
    List (String × List TrendItem) → List (String × List TrendItem)
  | [] => [(p, [it])]
  | (k, its) :: rest =>
    if k = p then (k, its ++ [it]) :: rest else (k, its) :: groupInsert p it rest

/-- The `periods` dict built by `_format_trends_response`. -/
def groupByPeriodAcc (acc : List (String × List TrendItem)) :
    List TrendItem → List (String × List TrendItem)
  | [] => acc
  | it :: rest => groupByPeriodAcc (groupInsert it.period it acc) rest

/-- Group trend rows by period key. -/
def groupByPeriod (l : List TrendItem) : List (String × List TrendItem) :=
  groupByPeriodAcc [] l

/-- `periods[period_key]`. -/
def groupGet (g : List (String × List TrendItem)) (k : String) : List TrendItem :=
  match g with
  | [] => []
  | (k2, its) :: rest => if k2 = k then its else groupGet rest k

/-- The lines rendered for one topic of one period. -/
def trendTopicLines (item : TrendItem) : List String :=
  ("- " ++ item.topic ++ ": " ++ toString item.story_count ++ " stories, "
      ++ toString item.article_count ++ " articles")
  :: ((item.articles.take 2).map fun a => ["  - " ++ a.title, "    " ++ a.link]).flatten

/-- The lines rendered for one period key. -/
def periodSection (g : List (String × List TrendItem)) (period_key : String) :
    List String :=
  let top_items := (sortByCountDesc (groupGet g period_key)).take 5
  ("\n**" ++ period_key ++ "**") :: (top_items.map trendTopicLines).flatten

/-- `QueryEngine._format_trends_response` (lines 573-600). -/
def format_trends_response (data : List TrendItem)
    (start_date end_date period : Json) (user_query : String) : String :=
  let _ := user_query
  let g := groupByPeriod data
  let keys := sortStrAsc (g.map (·.1))
  String.intercalate "\n"
    (("Topic trends from " ++ jsonPyStr start_date ++ " to " ++ jsonPyStr end_date
        ++ " (by " ++ jsonPyStr period ++ "):\n")
      :: (keys.map (periodSection g)).flatten)

/-- `enumerate(ts[:5], 1)`-style ranked topic lines of the comparison
formatter. -/
def rankedTopicLines (ts : List TopicEntry) : List String :=
  ts.enum.map fun it =>
    toString (it.1 + 1) ++ ". " ++ it.2.topic ++ " ("
      ++ toString it.2.story_count ++ " stories)"

/-- The `lines` list built by `_format_comparison_response` (lines
602-640); the final response is their newline join. -/
def comparisonLines (d : CompResult) : List String :=
  ["Comparing " ++ jsonPyStr d.period1_start ++ " - " ++ jsonPyStr d.period1_end
     ++ " vs " ++ jsonPyStr d.period2_start ++ " - " ++ jsonPyStr d.period2_end ++ ":\n"]
  ++ (if d.period1_topics.isEmpty then [] else
        "**Period 1 Top Topics:**" :: rankedTopicLines (d.period1_topics.take 5))
  ++ (if d.period2_topics.isEmpty then [] else
        "\n**Period 2 Top Topics:**" :: rankedTopicLines (d.period2_topics.take 5))
  ++ ["\n**Analysis:**"]
  ++ (if d.common_topics.isEmpty then [] else
        ["- Consistent topics: " ++ String.intercalate ", " (d.common_topics.take 5)])
  ++ (if d.new_in_period2.isEmpty then [] else
        ["- New in Period 2: " ++ String.intercalate ", " (d.new_in_period2.take 5)])
  ++ (if d.dropped_from_period1.isEmpty then [] else
        ["- Dropped from Period 1: "
          ++ String.intercalate ", " (d.dropped_from_period1.take 5)])

/-- `QueryEngine._format_comparison_response`. -/
def format_comparison_response (d : CompResult) : String :=
  String.intercalate "\n" (comparisonLines d)

/-- The lines rendered for one search result item. -/
def searchItemLines (item : SearchResult) : List String :=
  ("\n**" ++ item.topic_name ++ "** (" ++ pySlice 10 item.generated_at ++ ")")
  :: ((if item.summary_text ≠ "" then
        ["  " ++ (pySlice 200 item.summary_text
                   ++ if item.summary_text.length > 200 then "..." else "")]
      else [])
  ++ (if !item.articles.isEmpty then
        ("  Articles (" ++ toString item.article_count ++ "):")
        :: ((item.articles.take 3).map fun a =>
              ["  - " ++ a.title, "    " ++ a.link]).flatten
      else []))

/-- `QueryEngine._format_search_response` (lines 642-664). -/
def format_search_response (data : List SearchResult) (query : Json) : String :=
  String.intercalate "\n"
    ((("Found " ++ toString data.length ++ " results for '" ++ jsonPyStr query ++ "':\n")
        :: ((data.take 10).map searchItemLines).flatten)
      ++ (if data.length > 10 then
            ["\n... and " ++ toString (data.length - 10) ++ " more results"]
          else []))

/-- The `"-" * 50` separator of the custom formatter. -/
def dashes50 : String := "--------------------------------------------------"

/-- `str(row.get(col, ""))`. -/
def rowGetText (row : Row) (col : String) : String :=
  match lookupLast row col with
  | some v => v.pyText
  | none => ""

/-- The stringified, 30-character-truncated cells of one row
(`str(row.get(col, ""))[:30]`). -/
def renderCells (columns : List String) (row : Row) : List String :=
  columns.map fun c => String.mk ((rowGetText row c).data.take 30)

/-- A pipe-delimited table row. -/
def renderRow (columns : List String) (row : Row) : String :=
  String.intercalate " | " (renderCells columns row)

/-- The `lines` list of `_format_custom_response` for a non-empty
result (lines 671-692); `columns = list(data[0].keys())`. -/
def customLines (data : List Row) (explanation : Json) : List String :=
  let columns := dedupFirst (((data.head?).getD []).map (·.1))
  (jsonPyStr explanation ++ "\n")
  :: (if data.length ≤ 20 then
        [String.intercalate " | " columns, dashes50] ++ data.map (renderRow columns)
      else
        ["Returned " ++ toString data.length ++ " rows. Showing first 10:",
         String.intercalate " | " columns, dashes50]
          ++ (data.take 10).map (renderRow columns))

/-- `QueryEngine._format_custom_response` (lines 666-694). -/
def format_custom_response (data : List Row) (explanation : Json) : String :=
  if data.isEmpty then "Query returned no results."
  else String.intercalate "\n" (customLines data explanation)

/-! ## Router, handlers and facade (`QueryEngine`)

Exceptions raised inside the `try` of `classify_and_execute` —
`AttributeError` on a non-dict classification or non-dict parameters,
a non-string `sql`, or an error raised by the LLM collaborator — are
modelled with `Except.error` and converted to the `"error"` result
exactly where the source's `except` catches them.
-/

/-- The data payload of a `QueryResult` (Python's heterogeneous
`data` field per query type). -/
inductive Payload where
  | trends (items : List TrendItem)
  | comparison (c : CompResult)
  | search (items : List SearchResult)
  | custom (rows : List Row)
deriving Repr

/-- The `{success, query_type, data, response}` dict returned by
`classify_and_execute`. -/
structure QueryResult where
  success : Bool
  query_type : String
  data : Option Payload
  response : String
deriving Repr

/-- `QueryEngine._execute_trends` (lines 434-466). -/
def execute_trends (st : Store) (params : Json) (user_query : String) :
    Except String QueryResult :=
  match pget params "start_date" .null with
  | .error e => .error e
  | .ok start_date =>
    match pget params "end_date" .null with
    | .error e => .error e
    | .ok end_date =>
      match pget params "period" (.str "week") with
      | .error e => .error e
      | .ok period =>
        if !jsonTruthy start_date || !jsonTruthy end_date then
          .ok { success := false, query_type := "trends", data := none,
                response := "Could not determine date range for trends query." }
        else
          let data := topic_counts_by_period st start_date end_date period
          if data.isEmpty then
            .ok { success := true, query_type := "trends", data := some (.trends []),
                  response := "No data found for the period " ++ jsonPyStr start_date
                    ++ " to " ++ jsonPyStr end_date ++ "." }
          else
            .ok { success := true, query_type := "trends", data := some (.trends data),
                  response := format_trends_response data start_date end_date period user_query }

/-- `QueryEngine._execute_comparison` (lines 468-494). -/
def execute_comparison (st : Store) (params : Json) (user_query : String) :
    Except String QueryResult :=
  let _ := user_query
  match pget params "period1_start" .null with
  | .error e => .error e
  | .ok p1s =>
    match pget params "period1_end" .null with
    | .error e => .error e
    | .ok p1e =>
      match pget params "period2_start" .null with
      | .error e => .error e
      | .ok p2s =>
        match pget params "period2_end" .null with
        | .error e => .error e
        | .ok p2e =>
          match pget params "limit" (.num 10) with
          | .error e => .error e
          | .ok limit =>
            if !(jsonTruthy p1s && jsonTruthy p1e && jsonTruthy p2s && jsonTruthy p2e) then
              .ok { success := false, query_type := "comparison", data := none,
                    response := "Could not determine both time periods for comparison." }
            else
              let data := top_topics_comparison st p1s p1e p2s p2e limit
              .ok { success := true, query_type := "comparison",
                    data := some (.comparison data),
                    response := format_comparison_response data }

/-- `QueryEngine._execute_search` (lines 496-537). -/
def execute_search (st : Store) (params : Json) (user_query : String) :
    Except String QueryResult :=
  let _ := user_query
  match pget params "query" (.str "") with
  | .error e => .error e
  | .ok query =>
    match pget params "start_date" .null with
    | .error e => .error e
    | .ok start_date =>
      match pget params "end_date" .null with
      | .error e => .error e
      | .ok end_date =>
        match pget params "limit" (.num 20) with
        | .error e => .error e
        | .ok limit =>
          if !jsonTruthy query then
            .ok { success := false, query_type := "search", data := none,
                  response := "No search term provided." }
          else
            let data := topic_search st query start_date end_date limit
            if data.isEmpty then
              let date_filter :=
                if jsonTruthy start_date && jsonTruthy end_date then
                  " between " ++ jsonPyStr start_date ++ " and " ++ jsonPyStr end_date
                else if jsonTruthy start_date then " after " ++ jsonPyStr start_date
                else if jsonTruthy end_date then " before " ++ jsonPyStr end_date
                else ""
              .ok { success := true, query_type := "search", data := some (.search []),
                    response := "No topics found matching '" ++ jsonPyStr query ++ "'"
                      ++ date_filter ++ "." }
            else
              .ok { success := true, query_type := "search", data := some (.search data),
                    response := format_search_response data query }

/-- `QueryEngine._execute_custom_sql` (lines 539-571). The Boolean of
the pair records whether a store connection was opened while handling
the call (via `execute_safe_sql`). Only `sql` is checked for presence;
a missing `explanation` silently defaults to `"Custom query"`. -/
def execute_custom_sql (st : Store) (params : Json) (user_query : String) :
    Except String (QueryResult × Bool) :=
  let _ := user_query
  match pget params "sql" (.str "") with
  | .error e => .error e
  | .ok sql =>
    match pget params "explanation" (.str "Custom query") with
    | .error e => .error e
    | .ok explanation =>
      if !jsonTruthy sql then
        .ok ({ success := false, query_type := "custom", data := none,
               response := "No SQL query generated." }, false)
      else
        match sql with
        | .str s =>
          let er := execute_safe_sql s st.conn
          match er.outcome with
          | .error msg =>
            .ok ({ success := false, query_type := "custom", data := none,
                   response := "Query failed: " ++ msg }, er.opened)
          | .ok rows =>
            .ok ({ success := true, query_type := "custom", data := some (.custom rows),
                   response := format_custom_response rows explanation }, er.opened)
        | _ => .error "AttributeError: object has no attribute strip"

/-- `QueryEngine._execute_function` (lines 410-432): dispatch on the
classification's `function` value; any other value yields the
`unknown` failure. A non-dict classification raises `AttributeError`
at `classification.get`. -/
def execute_function (st : Store) (classification : Json) (user_query : String) :
    Except String QueryResult :=
  match classification with
  | .obj kvs =>
    let func := (lookupLast kvs "function").getD (.str "")
    let params := (lookupLast kvs "parameters").getD (.obj [])
    if jsonEqStr func "get_trends" then execute_trends st params user_query
    else if jsonEqStr func "compare_periods" then execute_comparison st params user_query
    else if jsonEqStr func "search_topics" then execute_search st params user_query
    else if jsonEqStr func "execute_sql" then
      match execute_custom_sql st params user_query with
      | .ok pr => .ok pr.1
      | .error e => .error e
    else
      .ok { success := false, query_type := "unknown", data := none,
            response := "Unknown function: " ++ jsonPyStr func }
  | _ => .error "AttributeError: object has no attribute get"

/-- `QueryEngine.classify_and_execute` (lines 314-387). The LLM
collaborator's behaviour is the `llm` argument: `.ok response` for a
returned completion, `.error e` for a raised exception; the source's
`try`/`except` converts any exception from the call, the dispatch or a
handler into the `"error"` result. A falsy parsed classification
(`None`, `{}`, `[]`, `0`, `""`) takes the `unknown` branch
(`if not classification`). -/
def classify_and_execute (st : Store) (llm : Except String String)
    (user_query : String) : QueryResult :=
  match llm with
  | .error e =>
    { success := false, query_type := "error", data := none,
      response := "Error processing query: " ++ e }
  | .ok response =>
    match parse_classification response with
    | none =>
      { success := false, query_type := "unknown", data := none,
        response := "I couldn't understand your query. Please try rephrasing it." }
    | some classification =>
      if !jsonTruthy classification then
        { success := false, query_type := "unknown", data := none,
          response := "I couldn't understand your query. Please try rephrasing it." }
      else
        match execute_function st classification user_query with
        | .ok r => r
        | .error e =>
          { success := false, query_type := "error", data := none,
            response := "Error processing query: " ++ e }

/-! ## Concrete collaborators used by witnesses -/

/-- A connection whose SELECTs all succeed with no rows. -/
def nilConn : SqlConn := { runSelect := fun _ => .ok [] }

/-- The first word of a string after trimming (spec-side helper for the
claims about leading SQL verbs). -/
def firstWord (s : String) : String :=
  String.mk ((pyStrip s).data.takeWhile isWordChar)

/-- A store whose first-period top topics are A, B and whose
second-period top topics are B, C (the spec's comparison scenario). -/
def cmpStore : Store :=
  { trendRows := fun _ _ _ => [], searchRows := fun _ _ _ _ => [],
    articlesForTopic := fun _ => [], conn := { runSelect := fun _ => .ok [] },
    topTopics := fun s _ _ =>
      if jsonEqStr s "2025-01-01" then
        [{ topic := "A", story_count := 3, article_count := 5, articles := [] },
         { topic := "B", story_count := 2, article_count := 2, articles := [] }]
      else
        [{ topic := "B", story_count := 4, article_count := 6, articles := [] },
         { topic := "C", story_count := 1, article_count := 1, articles := [] }] }

/-- The comparison of the two periods of `cmpStore`. -/
def cmpData : CompResult :=
  top_topics_comparison cmpStore (.str "2025-01-01") (.str "2025-01-31")
    (.str "2025-02-01") (.str "2025-02-28") (.num 10)

/-- A `compare_periods` parameter object for the two periods. -/
def cmpParams : Json :=
  .obj [("period1_start", .str "2025-01-01"), ("period1_end", .str "2025-01-31"),
        ("period2_start", .str "2025-02-01"), ("period2_end", .str "2025-02-28")]

/-- A store all of whose oracle queries come back empty. -/
def wStore : Store :=
  { trendRows := fun _ _ _ => [], topTopics := fun _ _ _ => [],
    searchRows := fun _ _ _ _ => [], articlesForTopic := fun _ => [],
    conn := nilConn }

/-- A connection answering every SELECT with the single row `{x: 1}`. -/
def oneRowConn : SqlConn :=
  { runSelect := fun _ => .ok [[("x", SqlValue.sInt 1)]] }

/-- `wStore` with the one-row connection. -/
def oneRowStore : Store := { wStore with conn := oneRowConn }

/-- An LLM response with the classification object nested in prose —
its `parameters` object gives the top-level block nested braces. -/
def nestedResponse : String :=
  "reply: \x7b\"function\": \"search_topics\", \"parameters\": \x7b\"query\": \"ai\"\x7d\x7d"

/-! ## Helper lemmas -/

/-- A non-empty string stays non-empty under right-append. -/
theorem append_ne_empty_left (s t : String) (h : s ≠ "") : s ++ t ≠ "" := by
  intro he
  apply h
  have hl := congrArg String.length he
  rw [String.length_append] at hl
  rw [show String.length "" = 0 from rfl] at hl
  have h0 : s.length = 0 := by omega
  have hd : s.data = [] := List.eq_nil_of_length_eq_zero h0
  exact String.ext (by simp [hd])

/-- The failure-shape invariant of §7: whenever a result is a failure,
its data is null and its response is a non-empty string. -/
def GoodResult (r : QueryResult) : Prop :=
  r.success = false → r.data = none ∧ r.response ≠ ""

/-- A failure result with null data and non-empty response is good. -/
theorem goodFalse (qt resp : String) (hresp : resp ≠ "") :
    GoodResult { success := false, query_type := qt, data := none, response := resp } :=
  fun _ => ⟨rfl, hresp⟩

/-- A success result is vacuously good. -/
theorem goodTrue (qt : String) (d : Option Payload) (resp : String) :
    GoodResult { success := true, query_type := qt, data := d, response := resp } :=
  fun hs => nomatch hs

/-- Every `ok` result of the trends handler is good. -/
theorem trends_good (st : Store) (params : Json) (q : String) (r : QueryResult)
    (h : execute_trends st params q = .ok r) : GoodResult r := by
  cases params <;> simp only [execute_trends, pget] at h <;>
    try exact Except.noConfusion h
  split at h
  · injection h with h2
    subst h2
    exact goodFalse _ _ (by decide)
  · split at h
    · injection h with h2
      subst h2
      exact goodTrue _ _ _
    · injection h with h2
      subst h2
      exact goodTrue _ _ _

/-- Every `ok` result of the comparison handler is good. -/
theorem comparison_good (st : Store) (params : Json) (q : String) (r : QueryResult)
    (h : execute_comparison st params q = .ok r) : GoodResult r := by
  cases params <;> simp only [execute_comparison, pget] at h <;>
    try exact Except.noConfusion h
  split at h
  · injection h with h2
    subst h2
    exact goodFalse _ _ (by decide)
  · injection h with h2
    subst h2
    exact goodTrue _ _ _

/-- Every `ok` result of the search handler is good. -/
theorem search_good (st : Store) (params : Json) (q : String) (r : QueryResult)
    (h : execute_search st params q = .ok r) : GoodResult r := by
  cases params <;> simp only [execute_search, pget] at h <;>
    try exact Except.noConfusion h
  split at h
  · injection h with h2
    subst h2
    exact goodFalse _ _ (by decide)
  · split at h
    · injection h with h2
      subst h2
      exact goodTrue _ _ _
    · injection h with h2
      subst h2
      exact goodTrue _ _ _

/-- Every `ok` result of the custom-SQL handler is good. -/
theorem custom_good (st : Store) (params : Json) (q : String)
    (pr : QueryResult × Bool)
    (h : execute_custom_sql st params q = .ok pr) : GoodResult pr.1 := by
  cases params <;> simp only [execute_custom_sql, pget] at h <;>
    try exact Except.noConfusion h
  split at h
  · injection h with h2
    subst h2
    exact goodFalse _ _ (by decide)
  · split at h
    · split at h
      · injection h with h2
        subst h2
        exact goodFalse _ _ (append_ne_empty_left "Query failed: " _ (by decide))
      · injection h with h2
        subst h2
        exact goodTrue _ _ _
    · exact Except.noConfusion h

/-- Every `ok` result of the router is good. -/
theorem function_good (st : Store) (cl : Json) (q : String) (r : QueryResult)
    (h : execute_function st cl q = .ok r) : GoodResult r := by
  cases cl <;> simp only [execute_function] at h <;>
    try exact Except.noConfusion h
  split at h
  · exact trends_good _ _ _ _ h
  · split at h
    · exact comparison_good _ _ _ _ h
    · split at h
      · exact search_good _ _ _ _ h
      · split at h
        · split at h
          · injection h with h2
            subst h2
            exact custom_good _ _ _ _ (by assumption)
          · exact Except.noConfusion h
        · injection h with h2
          subst h2
          exact goodFalse _ _ (append_ne_empty_left "Unknown function: " _ (by decide))

/-- The facade always returns a good result, for every store and every
LLM collaborator behaviour. -/
theorem classify_good (st : Store) (llm : Except String String) (q : String) :
    GoodResult (classify_and_execute st llm q) := by
  cases llm with
  | error e =>
    simp only [classify_and_execute]
    exact goodFalse _ _ (append_ne_empty_left "Error processing query: " e (by decide))
  | ok resp =>
    cases hp : parse_classification resp with
    | none =>
      simp only [classify_and_execute, hp]
      exact goodFalse _ _ (by decide)
    | some cl =>
      cases htr : jsonTruthy cl with
      | false =>
        simp only [classify_and_execute, hp, htr, Bool.not_false, if_true]
        exact goodFalse _ _ (by decide)
      | true =>
        simp only [classify_and_execute, hp, htr, Bool.not_true]
        rw [if_neg (by decide)]
        cases hf : execute_function st cl q with
        | ok r => exact function_good st cl q r hf
        | error e =>
          exact goodFalse _ _ (append_ne_empty_left "Error processing query: " e (by decide))

/-- Membership in the deduplication worker: kept iff present in the
remaining input and not already seen. -/
theorem mem_dedupGo (l : List String) (seen : List String) (x : String) :
    x ∈ dedupGo l seen ↔ x ∈ l ∧ x ∉ seen := by
  induction l generalizing seen with
  | nil => simp [dedupGo]
  | cons y ys ih =>
    by_cases hy : y ∈ seen
    · have hcy : seen.contains y = true := List.elem_iff.mpr hy
      rw [show dedupGo (y :: ys) seen = dedupGo ys seen by
        simp only [dedupGo]; rw [if_pos hcy]]
      rw [ih]
      simp only [List.mem_cons]
      constructor
      · exact fun ⟨h1, h2⟩ => ⟨Or.inr h1, h2⟩
      · rintro ⟨rfl | h1, h2⟩
        · exact absurd hy h2
        · exact ⟨h1, h2⟩
    · have hcy : seen.contains y = false := by
        rw [← Bool.not_eq_true]
        intro hc
        exact hy (List.elem_iff.mp hc)
      rw [show dedupGo (y :: ys) seen = y :: dedupGo ys (y :: seen) by
        simp only [dedupGo]; rw [if_neg (by simp [hcy]; exact hy)]]
      simp only [List.mem_cons, ih, List.mem_cons, not_or]
      constructor
      · rintro (rfl | ⟨h1, h2, h3⟩)
        · exact ⟨Or.inl rfl, hy⟩
        · exact ⟨Or.inr h1, h3⟩
      · rintro ⟨rfl | h1, h2⟩
        · exact Or.inl rfl
        · by_cases hxy : x = y
          · exact Or.inl hxy
          · exact Or.inr ⟨h1, hxy, h2⟩

/-- `dedupFirst` preserves membership: it models the Python set built
from the list. -/
theorem mem_dedupFirst (l : List String) (x : String) :
    x ∈ dedupFirst l ↔ x ∈ l := by
  simp [dedupFirst, mem_dedupGo]

/-- 25 single-column rows for the custom-formatter scenario. -/
def manyRows : List Row :=
  (List.range 25).map fun i => [("n", SqlValue.sInt i)]

/-- A store with one normalized topic matching the pattern `%openai%`. -/
def searchStore : Store :=
  { trendRows := fun _ _ _ => [], topTopics := fun _ _ _ => [],
    conn := { runSelect := fun _ => .ok [] },
    searchRows := fun pat _ _ _ =>
      if pat = "%openai%" then
        [{ id := 1, topic_name := "OpenAI Developments",
           normalized_name := "openai developments", summary_text := "stuff",
           article_count := 1, generated_at := "2025-03-01T00:00:00",
           summary_id := 7 }]
      else [],
    articlesForTopic := fun _ =>
      [{ title := "T", link := "http://x", source := "S",
         published_date := "2025-03-01" }] }

/-- A `get_trends` classification response whose `period` is the
invalid value `year`. -/
def trendsResp : String :=
  "\x7b\"function\": \"get_trends\", \"parameters\": \x7b\"start_date\": \"2025-01-01\", \"end_date\": \"2025-02-01\", \"period\": \"year\"\x7d\x7d"

/-- A store whose trend SELECT would return a row — so an empty
`topic_counts_by_period` result can only come from the period
whitelist. -/
def trendStore : Store :=
  { trendRows := fun _ _ _ =>
      [{ period := "2025-01", topic := "ai", story_count := 1,
         article_count := 1, articles := [] }],
    topTopics := fun _ _ _ => [], searchRows := fun _ _ _ _ => [],
    articlesForTopic := fun _ => [],
    conn := { runSelect := fun _ => .ok [] } }

/-- A `lookupLast` hit implies the dictionary is non-empty. -/
theorem lookupLast_ne_nil {α : Type} (kvs : List (String × α)) (k : String)
    (v : α) (h : lookupLast kvs k = some v) : kvs ≠ [] := by
  intro he
  subst he
  simp [lookupLast] at h

/-! ## Claims -/

/-- C1, counterexample: in `"SELECT 1; (2)"` a semicolon is followed
(after whitespace) by the non-whitespace character `(`; the string
starts with SELECT and has no denylisted keyword and no comment marker,
yet `validate_sql` accepts it — the multi-statement rule does NOT
reject a semicolon followed by arbitrary non-whitespace content. -/
theorem C1_counterexample :
    startsWithStr (pyStrip (pyUpper "SELECT 1; (2)")) "SELECT" = true ∧
    findForbiddenKeyword (pyStrip (pyUpper "SELECT 1; (2)")) = none ∧
    containsSub "SELECT 1; (2)" "--" = false ∧
    containsSub "SELECT 1; (2)" "/*" = false ∧
    semiThenNonWs "SELECT 1; (2)".data = true ∧
    validate_sql "SELECT 1; (2)" = (true, "") := by
  refine ⟨by decide, by decide, by decide, by decide, by decide, by decide⟩

/-- C1, amended: for every SQL string that starts with SELECT (after
uppercasing and trimming) and contains no denylisted keyword, if a
semicolon is followed (possibly after whitespace) by a WORD character
(letter, digit or underscore — the regex `;\s*\w`), then `validate_sql`
rejects with the pattern reason. A semicolon followed only by non-word
non-whitespace content is not caught by this rule. -/
theorem C1_amended (sql : String)
    (h0 : pyStrip sql ≠ "")
    (h1 : startsWithStr (pyStrip (pyUpper sql)) "SELECT" = true)
    (h2 : findForbiddenKeyword (pyStrip (pyUpper sql)) = none)
    (h3 : semiThenWord sql.data = true) :
    validate_sql sql = (false, "Forbidden SQL pattern detected") := by
  unfold validate_sql
  rw [if_neg h0]
  simp [h1, h2, hasForbiddenPattern, h3]

/-- C1, witness: the amended theorem applied at `"SELECT 1; x"`. -/
theorem C1_amended_witness :
    pyStrip "SELECT 1; x" ≠ "" ∧
    startsWithStr (pyStrip (pyUpper "SELECT 1; x")) "SELECT" = true ∧
    findForbiddenKeyword (pyStrip (pyUpper "SELECT 1; x")) = none ∧
    semiThenWord "SELECT 1; x".data = true ∧
    validate_sql "SELECT 1; x" = (false, "Forbidden SQL pattern detected") :=
  ⟨by decide, by decide, by decide, by decide,
   C1_amended "SELECT 1; x" (by decide) (by decide) (by decide) (by decide)⟩

/-- C2, counterexample: the first word of `"SELECTED FROM topics"` is
`SELECTED`, not `SELECT`, yet `validate_sql` accepts it: the start
check is `startswith("SELECT")`, a prefix test, so a leading token with
SELECT as a proper prefix passes. -/
theorem C2_counterexample :
    firstWord (pyUpper "SELECTED FROM topics") = "SELECTED" ∧
    firstWord (pyUpper "SELECTED FROM topics") ≠ "SELECT" ∧
    validate_sql "SELECTED FROM topics" = (true, "") := by
  refine ⟨by decide, by decide, by decide⟩

/-- C2, amended: for every non-blank SQL string whose uppercased,
trimmed form does not have `SELECT` as a PREFIX, `validate_sql` rejects
with reason "Only SELECT queries are allowed"; in particular every
string whose first word is a denylisted keyword is rejected here. A
leading token that merely extends SELECT (e.g. `SELECTED`) passes this
check and can be accepted. -/
theorem C2_amended (sql : String)
    (h0 : pyStrip sql ≠ "")
    (h1 : startsWithStr (pyStrip (pyUpper sql)) "SELECT" = false) :
    validate_sql sql = (false, "Only SELECT queries are allowed") := by
  unfold validate_sql
  rw [if_neg h0]
  simp [h1]

/-- C2, witness: the amended theorem applied at a string led by the
denylisted keyword INSERT. -/
theorem C2_amended_witness :
    pyStrip "INSERT INTO topics VALUES (1)" ≠ "" ∧
    startsWithStr (pyStrip (pyUpper "INSERT INTO topics VALUES (1)")) "SELECT" = false ∧
    validate_sql "INSERT INTO topics VALUES (1)" =
      (false, "Only SELECT queries are allowed") :=
  ⟨by decide, by decide,
   C2_amended "INSERT INTO topics VALUES (1)" (by decide) (by decide)⟩

/-- C3: whenever `validate_sql` rejects a string with some reason,
`execute_safe_sql` — which re-validates its input itself — returns the
same `(False, reason)` failure without opening a store connection, for
every connection (the connection oracle is never consulted). -/
theorem C3_reject_without_connection (sql : String) (conn : SqlConn) (reason : String)
    (h : validate_sql sql = (false, reason)) :
    execute_safe_sql sql conn = { opened := false, outcome := .error reason } := by
  unfold execute_safe_sql
  rw [h]

/-- C3, witness: a denylist-leading statement is rejected by
`execute_safe_sql` with `opened = false`. -/
theorem C3_reject_without_connection_witness :
    validate_sql "DROP TABLE topics" = (false, "Only SELECT queries are allowed") ∧
    execute_safe_sql "DROP TABLE topics" nilConn =
      { opened := false, outcome := .error "Only SELECT queries are allowed" } :=
  ⟨by decide,
   C3_reject_without_connection "DROP TABLE topics" nilConn
     "Only SELECT queries are allowed" (by decide)⟩

/-- C4, counterexample: the brace-extraction regex `\{[^\x7b\x7d]*\}`
does NOT match a block containing nested braces. On a response whose
top-level classification object nests a `parameters` object, the parser
returns the inner brace-free block, not the top-level block the claim
describes. -/
theorem C4_counterexample :
    parse_classification nestedResponse = some (.obj [("query", .str "ai")]) ∧
    parse_classification nestedResponse ≠
      some (.obj [("function", .str "search_topics"),
                  ("parameters", .obj [("query", .str "ai")])]) := by
  constructor
  · rfl
  · intro h
    rw [show parse_classification nestedResponse =
          some (Json.obj [("query", Json.str "ai")]) from rfl] at h
    injection h with h1
    injection h1 with h2
    injection h2 with h3 h4
    injection h4

/-- C4, amended: the classification parser strips markdown code-fence
markers, attempts a strict JSON parse of the stripped text (equivalent
to strict-parse-then-strip-and-retry, since no JSON document starts
with a backtick), on failure regex-extracts the first `\x7b...\x7d`
block CONTAINING NO NESTED BRACES (a block with nested braces is never
matched whole; an inner brace-free block may be extracted instead) and
retries, and if all attempts fail returns a parse-failure value without
raising, after which `classify_and_execute` returns `success = false`
with `query_type = "unknown"`. -/
theorem C4_amended :
    (∀ r v, jsonLoads (pyStrip (stripFences r)) = some v →
       parse_classification r = some v) ∧
    (∀ r, jsonLoads (pyStrip (stripFences r)) = none →
       parse_classification r = (findBraceBlock (stripFences r).data).bind jsonLoads) ∧
    (∀ st q r, parse_classification r = none →
       classify_and_execute st (.ok r) q =
         { success := false, query_type := "unknown", data := none,
           response := "I couldn't understand your query. Please try rephrasing it." }) := by
  refine ⟨fun r v h => ?_, fun r h => ?_, fun st q r h => ?_⟩
  · simp only [parse_classification, h]
  · simp only [parse_classification, h]
    cases findBraceBlock (stripFences r).data <;> rfl
  · simp only [classify_and_execute, h]

/-- C4, witness: the amended theorem applied to a plain-prose response
with no JSON anywhere. -/
theorem C4_amended_witness :
    parse_classification "The top topic was AI." = none ∧
    classify_and_execute wStore (.ok "The top topic was AI.") "what was hot?" =
      { success := false, query_type := "unknown", data := none,
        response := "I couldn't understand your query. Please try rephrasing it." } :=
  ⟨rfl, C4_amended.2.2 wStore "what was hot?" "The top topic was AI." rfl⟩

/-- C5, counterexample: a classification for `execute_sql` whose
`explanation` parameter is ABSENT is not rejected: the handler checks
only `sql`, defaults the explanation to "Custom query", executes the
statement, opens a store connection (second component `true`) and
returns `success = true` — contradicting both halves of the claim. -/
theorem C5_counterexample :
    lookupLast [("sql", Json.str "SELECT 1")] "explanation" = none ∧
    (execute_custom_sql oneRowStore (.obj [("sql", .str "SELECT 1")]) "q").map
        (fun pr => (pr.1.success, pr.2)) =
      .ok (true, true) := by
  exact ⟨rfl, rfl⟩

/-- C5, amended: the handler validates only `sql`: whenever the `sql`
parameter is absent or falsy (e.g. the empty string), it returns
`success = false` with the message "No SQL query generated." and never
calls the store (no connection is opened); a missing or empty
`explanation` does not cause a failure and does not prevent store
access. -/
theorem C5_amended (st : Store) (params : Json) (q : String) (sqlv : Json)
    (h1 : pget params "sql" (.str "") = .ok sqlv)
    (h2 : jsonTruthy sqlv = false) :
    execute_custom_sql st params q =
      .ok ({ success := false, query_type := "custom", data := none,
             response := "No SQL query generated." }, false) := by
  cases params <;> simp [pget] at h1
  case obj kvs =>
    unfold execute_custom_sql
    simp [pget, h1, h2]

/-- C7: for every pair of periods (every store and every pair of
bounds), membership in `common_topics`, `new_in_period2` and
`dropped_from_period1` is exactly set intersection and the two set
differences of the periods' top-topic name sets; on the {A,B} vs {B,C}
scenario they are `{B}`, `{C}` and `{A}`; the comparison formatter
renders each list truncated to 5 names while the handler stores the
full untruncated lists in `data`. -/
theorem C7_comparison_sets :
    (∀ (st : Store) (p1s p1e p2s p2e lim : Json) (x : String),
      (x ∈ (top_topics_comparison st p1s p1e p2s p2e lim).common_topics ↔
        (x ∈ (top_topics_comparison st p1s p1e p2s p2e lim).period1_topics.map
              (·.topic) ∧
         x ∈ (top_topics_comparison st p1s p1e p2s p2e lim).period2_topics.map
              (·.topic))) ∧
      (x ∈ (top_topics_comparison st p1s p1e p2s p2e lim).new_in_period2 ↔
        (x ∈ (top_topics_comparison st p1s p1e p2s p2e lim).period2_topics.map
              (·.topic) ∧
         x ∉ (top_topics_comparison st p1s p1e p2s p2e lim).period1_topics.map
              (·.topic))) ∧
      (x ∈ (top_topics_comparison st p1s p1e p2s p2e lim).dropped_from_period1 ↔
        (x ∈ (top_topics_comparison st p1s p1e p2s p2e lim).period1_topics.map
              (·.topic) ∧
         x ∉ (top_topics_comparison st p1s p1e p2s p2e lim).period2_topics.map
              (·.topic)))) ∧
    (cmpData.common_topics = ["B"] ∧ cmpData.new_in_period2 = ["C"] ∧
     cmpData.dropped_from_period1 = ["A"]) ∧
    (∀ d : CompResult, d.common_topics ≠ [] →
      ("- Consistent topics: " ++ String.intercalate ", " (d.common_topics.take 5))
        ∈ comparisonLines d) ∧
    (∀ d : CompResult, d.new_in_period2 ≠ [] →
      ("- New in Period 2: " ++ String.intercalate ", " (d.new_in_period2.take 5))
        ∈ comparisonLines d) ∧
    (∀ d : CompResult, d.dropped_from_period1 ≠ [] →
      ("- Dropped from Period 1: "
          ++ String.intercalate ", " (d.dropped_from_period1.take 5))
        ∈ comparisonLines d) ∧
    execute_comparison cmpStore cmpParams "compare the periods" =
      .ok { success := true, query_type := "comparison",
            data := some (.comparison cmpData),
            response := format_comparison_response cmpData } := by
  refine ⟨fun st p1s p1e p2s p2e lim x => ?_, ⟨rfl, rfl, rfl⟩,
          fun d h => ?_, fun d h => ?_, fun d h => ?_, rfl⟩
  · simp [top_topics_comparison, List.mem_filter, mem_dedupFirst, List.elem_iff]
  · simp [comparisonLines, h]
  · simp [comparisonLines, h]
  · simp [comparisonLines, h]

/-- C7, witness: the truncation-line parts applied to the concrete
comparison data. -/
theorem C7_comparison_sets_witness :
    cmpData.common_topics ≠ [] ∧
    ("- Consistent topics: "
        ++ String.intercalate ", " (cmpData.common_topics.take 5))
      ∈ comparisonLines cmpData :=
  ⟨by decide, C7_comparison_sets.2.2.1 cmpData (by decide)⟩

/-- C6: for every store, every user question and every LLM collaborator
behaviour (any response string, or any raised error), whenever the
`QueryResult` of `classify_and_execute` has `success = false` its
`data` is null and its `response` is a non-empty human-readable string.
`classify_and_execute` is a total function of the collaborator
behaviour, so no exception escapes it: every raised collaborator or
handler error is converted to the `"error"` result. -/
theorem C6_failure_invariant (st : Store) (llm : Except String String) (q : String)
    (h : (classify_and_execute st llm q).success = false) :
    (classify_and_execute st llm q).data = none ∧
    (classify_and_execute st llm q).response ≠ "" :=
  classify_good st llm q h

/-- C6, witness: the invariant applied to a collaborator that raises. -/
theorem C6_failure_invariant_witness :
    (classify_and_execute wStore (.error "boom") "q").success = false ∧
    ((classify_and_execute wStore (.error "boom") "q").data = none ∧
     (classify_and_execute wStore (.error "boom") "q").response ≠ "") :=
  ⟨rfl, C6_failure_invariant wStore (.error "boom") "q" rfl⟩

/-- C5, witness: the amended theorem applied to parameters that omit
`sql` entirely. -/
theorem C5_amended_witness :
    pget (.obj []) "sql" (.str "") = .ok (.str "") ∧
    jsonTruthy (.str "") = false ∧
    execute_custom_sql oneRowStore (.obj []) "q" =
      .ok ({ success := false, query_type := "custom", data := none,
             response := "No SQL query generated." }, false) :=
  ⟨rfl, rfl, C5_amended oneRowStore (.obj []) "q" (.str "") rfl rfl⟩

/-- C8, counterexample: on the EMPTY result list the custom formatter
renders the fixed string "Query returned no results." and does not
render the explanation at all, so the claim's "for every custom-SQL
result list, the formatter renders the explanation string then a
table" fails at `[]`. -/
theorem C8_counterexample :
    format_custom_response [] (.str "EXPLANATION") = "Query returned no results." ∧
    startsWithStr (format_custom_response [] (.str "EXPLANATION")) "EXPLANATION"
      = false := by
  exact ⟨rfl, by decide⟩

/-- C8, amended: for every NON-EMPTY custom-SQL result list, the
formatter renders the explanation line and then a pipe-delimited
table; if and only if the row count exceeds 20 it shows only the first
10 rows preceded by the literal notice "Returned N rows. Showing first
10:" (N the total row count), otherwise all rows; every cell value is
stringified and truncated to at most 30 characters. The empty list is
formatted as the fixed string "Query returned no results." without the
explanation. -/
theorem C8_amended (data : List Row) (expl : Json) (h : data ≠ []) :
    (data.length > 20 →
      customLines data expl =
        [jsonPyStr expl ++ "\n",
         "Returned " ++ toString data.length ++ " rows. Showing first 10:",
         String.intercalate " | " (dedupFirst (((data.head?).getD []).map (·.1))),
         dashes50]
        ++ (data.take 10).map
            (renderRow (dedupFirst (((data.head?).getD []).map (·.1))))) ∧
    (data.length ≤ 20 →
      customLines data expl =
        [jsonPyStr expl ++ "\n",
         String.intercalate " | " (dedupFirst (((data.head?).getD []).map (·.1))),
         dashes50]
        ++ data.map (renderRow (dedupFirst (((data.head?).getD []).map (·.1))))) ∧
    (∀ row ∈ data,
      ∀ cell ∈ renderCells (dedupFirst (((data.head?).getD []).map (·.1))) row,
        cell.length ≤ 30) ∧
    format_custom_response data expl = String.intercalate "\n" (customLines data expl) := by
  refine ⟨fun hl => ?_, fun hl => ?_, fun row _ cell hcell => ?_, ?_⟩
  · simp only [customLines]
    rw [if_neg (by omega)]
    rfl
  · simp only [customLines]
    rw [if_pos hl]
    rfl
  · simp only [renderCells, List.mem_map] at hcell
    obtain ⟨c, _, rfl⟩ := hcell
    show (String.mk ((rowGetText row c).data.take 30)).length ≤ 30
    have : (String.mk ((rowGetText row c).data.take 30)).length
        = ((rowGetText row c).data.take 30).length := rfl
    rw [this, List.length_take]
    omega
  · simp only [format_custom_response]
    rw [if_neg (by simp [h])]

/-- C8, witness: the amended theorem applied at a 25-row result — the
notice carries the literal row count 25 and exactly the first 10 rows
follow. -/
theorem C8_amended_witness :
    manyRows ≠ [] ∧ manyRows.length > 20 ∧
    "Returned 25 rows. Showing first 10:" ∈ customLines manyRows (.str "E") ∧
    customLines manyRows (.str "E") =
      [jsonPyStr (.str "E") ++ "\n",
       "Returned " ++ toString manyRows.length ++ " rows. Showing first 10:",
       String.intercalate " | "
         (dedupFirst (((manyRows.head?).getD []).map (·.1))),
       dashes50]
      ++ (manyRows.take 10).map
          (renderRow (dedupFirst (((manyRows.head?).getD []).map (·.1)))) :=
  ⟨by decide, by decide, by decide,
   (C8_amended manyRows (.str "E") (by decide)).1 (by decide)⟩

/-- C9: `topic_search` lowercases its query into the LIKE pattern, so
any two queries equal up to case produce identical result lists over
the same store, date filters and limit; and, the model being a pure
function of the store, repeated identical calls return identical
results. -/
theorem C9_topic_search_case_insensitive :
    (∀ (st : Store) (a b : String) (sd ed lim : Json),
       pyLower a = pyLower b →
       topic_search st (.str a) sd ed lim = topic_search st (.str b) sd ed lim) ∧
    (∀ (st : Store) (q sd ed lim : Json),
       topic_search st q sd ed lim = topic_search st q sd ed lim) := by
  refine ⟨fun st a b sd ed lim h => ?_, fun _ _ _ _ _ => rfl⟩
  simp [topic_search, h]

/-- C9, witness: `topic_search("OpenAI")` and `topic_search("openai")`
coincide on a store where the pattern `%openai%` matches one topic, and
the shared result is non-empty. -/
theorem C9_topic_search_case_insensitive_witness :
    pyLower "OpenAI" = pyLower "openai" ∧
    topic_search searchStore (.str "OpenAI") .null .null (.num 20) =
      topic_search searchStore (.str "openai") .null .null (.num 20) ∧
    (topic_search searchStore (.str "OpenAI") .null .null (.num 20)).length = 1 :=
  ⟨rfl,
   C9_topic_search_case_insensitive.1 searchStore "OpenAI" "openai"
     .null .null (.num 20) rfl,
   rfl⟩

/-- C10: for a `get_trends` classification with non-empty string start
and end dates, whenever `topic_counts_by_period` answers the empty
list, `classify_and_execute` returns `success = true` with `data` the
empty list and the "No data found" response — an empty result set is
success, not failure; and the data layer answers ANY period outside
day/week/month with the empty list rather than an error. -/
theorem C10_trends_empty_success :
    (∀ (st : Store) (resp q : String) (kvs : List (String × Json)) (params : Json)
       (s e : String),
       parse_classification resp = some (.obj kvs) →
       lookupLast kvs "function" = some (.str "get_trends") →
       lookupLast kvs "parameters" = some params →
       pget params "start_date" .null = .ok (.str s) →
       pget params "end_date" .null = .ok (.str e) →
       s ≠ "" → e ≠ "" →
       (∀ per, pget params "period" (.str "week") = .ok per →
          topic_counts_by_period st (.str s) (.str e) per = []) →
       classify_and_execute st (.ok resp) q =
         { success := true, query_type := "trends", data := some (.trends []),
           response := "No data found for the period " ++ s ++ " to " ++ e ++ "." }) ∧
    (∀ (st : Store) (sd ed per : Json),
       jsonEqStr per "day" = false → jsonEqStr per "week" = false →
       jsonEqStr per "month" = false →
       topic_counts_by_period st sd ed per = []) := by
  constructor
  · intro st resp q kvs params s e hp hfunc hparams hs he hsne hene hempty
    have hkvs : kvs ≠ [] := lookupLast_ne_nil kvs "function" _ hfunc
    cases params with
    | obj pkvs =>
      simp only [pget, Except.ok.injEq] at hs he
      have hper := hempty ((lookupLast pkvs "period").getD (.str "week")) rfl
      have hb1 : jsonTruthy (.str s) = true := by
        simp [jsonTruthy]
        exact hsne
      have hb2 : jsonTruthy (.str e) = true := by
        simp [jsonTruthy]
        exact hene
      cases kvs with
      | nil => exact absurd rfl hkvs
      | cons kv kvs2 =>
        simp only [classify_and_execute, hp]
        rw [if_neg (by simp [jsonTruthy])]
        rw [show execute_function st (.obj (kv :: kvs2)) q
              = execute_trends st (.obj pkvs) q by
          simp [execute_function, jsonEqStr, hfunc, hparams]]
        rw [show execute_trends st (.obj pkvs) q =
              .ok { success := true, query_type := "trends",
                    data := some (.trends []),
                    response := "No data found for the period " ++ s
                      ++ " to " ++ e ++ "." } by
          simp only [execute_trends, pget, hs, he, hb1, hb2, Bool.not_true,
            Bool.or_self, Bool.false_eq_true, if_false, hper, List.isEmpty_nil,
            if_true, jsonPyStr]]
    | null => simp [pget] at hs
    | bool b => simp [pget] at hs
    | num n => simp [pget] at hs
    | str s2 => simp [pget] at hs
    | arr xs => simp [pget] at hs
  · intro st sd ed per h1 h2 h3
    simp [topic_counts_by_period, h1, h2, h3]

/-- C10, witness: a `get_trends` classification with the invalid
period `year`, over a store whose trend SELECT would return a row: the
data layer answers `[]` because of the period whitelist, and the
facade reports success with empty data and the "No data found"
response. -/
theorem C10_trends_empty_success_witness :
    parse_classification trendsResp =
      some (.obj [("function", .str "get_trends"),
                  ("parameters", .obj [("start_date", .str "2025-01-01"),
                                       ("end_date", .str "2025-02-01"),
                                       ("period", .str "year")])]) ∧
    trendStore.trendRows (.str "2025-01-01") (.str "2025-02-01") "%Y-%m" ≠ [] ∧
    classify_and_execute trendStore (.ok trendsResp) "trends last month" =
      { success := true, query_type := "trends", data := some (.trends []),
        response := "No data found for the period 2025-01-01 to 2025-02-01." } := by
  refine ⟨rfl, by decide, ?_⟩
  exact C10_trends_empty_success.1 trendStore trendsResp "trends last month"
    [("function", .str "get_trends"),
     ("parameters", .obj [("start_date", .str "2025-01-01"),
                          ("end_date", .str "2025-02-01"),
                          ("period", .str "year")])]
    (.obj [("start_date", .str "2025-01-01"), ("end_date", .str "2025-02-01"),
           ("period", .str "year")])
    "2025-01-01" "2025-02-01" rfl rfl rfl rfl rfl (by decide) (by decide)
    (fun per hper => by
      injection hper with h2
      subst h2
      rfl)

end RssNewsAI
